import Mathlib

/-
Verification of the OneDrive Graph API client (onedrive_api.py).

The embedding models the credential lifecycle manager (the access_token
property, _is_token_expired and _refresh_token) and the authenticated request
dispatcher (_make_request), with the network represented by oracles: a map
from refresh-call index to the identity-provider response, and a map from
target-API attempt index to the target-API response.  Timestamps are integers
(seconds); the 5-minute skew is 300 seconds.  The endpoint builders of the
five public file operations are modelled as the string formatters they are,
including a faithful model of urllib quote as used by get_file_by_path.
-/

namespace OneDrive

/-- Target API base URL from the source. -/
def GRAPH_URL : String := "https://graph.microsoft.com/v1.0"

/-- Mutable credential fields of the client, as set in init: an optional
access token and an optional absolute expiry timestamp (seconds). -/
structure ClientState where
  accessToken : Option String
  tokenExpiry : Option Int
  deriving DecidableEq

/-- State right after construction: both fields are None. -/
def initClientState : ClientState := ⟨none, none⟩

/-- Parsed identity-provider response: HTTP status plus the two body fields
the client reads; a missing access_token field models a malformed body. -/
structure ProviderResponse where
  status : Nat
  access_token : Option String
  expires_in : Option Int
  deriving DecidableEq

/-- Target-API response: status code and body. -/
structure Response where
  status : Nat
  body : String
  deriving DecidableEq

/-- Errors surfaced by the client: provider failure (raise_for_status in
_refresh_token), malformed provider body (KeyError), overflow of the expiry
computation (OverflowError in datetime arithmetic), or target-API error
(raise_for_status in _make_request). -/
inductive ClientError where
  | authError : Nat → ClientError
  | malformedBody : ClientError
  | overflowError : ClientError
  | httpError : Nat → String → ClientError
  deriving DecidableEq

/-- One outbound target-API request as issued by the dispatcher. -/
structure RequestSpec where
  method : String
  url : String
  headers : List (String × String)
  opts : List (String × String)
  deriving DecidableEq

/-- Python dict insertion: replace in place when the key exists, else append. -/
def dictInsert (d : List (String × String)) (k v : String) :
    List (String × String) :=
  if d.any (fun p => p.1 == k) then
    d.map (fun p => if p.1 == k then (k, v) else p)
  else d ++ [(k, v)]

/-- Python dict.update: entries of the second map override the first. -/
def dictUpdate (d upd : List (String × String)) : List (String × String) :=
  upd.foldl (fun acc p => dictInsert acc p.1 p.2) d

/-- Python dict lookup. -/
def dictGet (d : List (String × String)) (k : String) : Option String :=
  (d.find? (fun p => p.1 == k)).map (fun p => p.2)

/-- Model of requests raise_for_status: an exception is raised exactly for
status codes in 400..599. -/
def raiseForStatus (s : Nat) : Bool := decide (400 ≤ s ∧ s < 600)

/-- Model of _is_token_expired: true when the token is falsy (absent or the
empty string), the expiry is absent, or now is at or past expiry minus the
5-minute (300 s) skew. -/
def isTokenExpired (st : ClientState) (now : Int) : Bool :=
  match st.accessToken, st.tokenExpiry with
  | some tok, some e => if tok = "" then true else decide (e - 300 ≤ now)
  | _, _ => true

/-- Seconds-since-epoch timestamp of the smallest representable datetime,
0001-01-01 00:00:00. -/
def DATETIME_MIN_TS : Int := -62135596800

/-- Seconds-since-epoch timestamp of the largest representable datetime,
9999-12-31 23:59:59. -/
def DATETIME_MAX_TS : Int := 253402300799

/-- A timedelta of this many whole seconds cannot be constructed: the
normalized day count must stay within 999999999 days in magnitude. -/
def timedeltaRaises (s : Int) : Bool :=
  decide (s < -86399999913600 ∨ 86399999999999 < s)

/-- Adding s seconds to the time now lands outside the representable
datetime range. -/
def datetimeAddRaises (now s : Int) : Bool :=
  decide (now + s < DATETIME_MIN_TS ∨ DATETIME_MAX_TS < now + s)

/-- The expiry computation, utcnow plus a timedelta of s seconds, raises an
OverflowError: either the timedelta itself or the datetime sum overflows. -/
def expiryAddRaises (now s : Int) : Bool :=
  timedeltaRaises s || datetimeAddRaises now s

/-- Model of _refresh_token applied to a given provider response: raise on a
4xx/5xx provider status, raise on a body without access_token; both happen
before any assignment and return the input state unchanged.  Otherwise the
token field is assigned first, and only then is the expiry computed: when
that computation overflows, the attempt raises with the new token already
stored and the previous expiry untouched; when it succeeds, the expiry
becomes now plus expires_in (default 3600). -/
def refreshTokenRun (st : ClientState) (now : Int) (resp : ProviderResponse) :
    Except ClientError Unit × ClientState :=
  if raiseForStatus resp.status then
    (Except.error (ClientError.authError resp.status), st)
  else
    match resp.access_token with
    | none => (Except.error ClientError.malformedBody, st)
    | some tok =>
      if expiryAddRaises now (resp.expires_in.getD 3600) then
        (Except.error ClientError.overflowError, ⟨some tok, st.tokenExpiry⟩)
      else
        (Except.ok (), ⟨some tok, some (now + resp.expires_in.getD 3600)⟩)

/-- Result of reading the access_token property: the token or an auth error,
the state afterwards, and the running count of provider calls. -/
structure AuthStep where
  result : Except ClientError String
  st : ClientState
  refreshes : Nat

/-- Model of the access_token property: refresh first when the expiry check
fails, then return the stored token.  The nref argument threads the count of
provider calls made so far. -/
def accessTokenGet (st : ClientState) (now : Int)
    (prov : Nat → ProviderResponse) (nref : Nat) : AuthStep :=
  if isTokenExpired st now then
    let rr := refreshTokenRun st now (prov nref)
    match rr.1 with
    | Except.error e => ⟨Except.error e, rr.2, nref + 1⟩
    | Except.ok _ => ⟨Except.ok (rr.2.accessToken.getD ""), rr.2, nref + 1⟩
  else ⟨Except.ok (st.accessToken.getD ""), st, nref⟩

/-- Outcome of one _make_request call: the returned response or the raised
error, the final credential state, the target-API requests issued in order,
the number of provider calls, and the number of forced (reactive) refreshes. -/
structure MkOutcome where
  result : Except ClientError Response
  st : ClientState
  requestsMade : List RequestSpec
  refreshes : Nat
  forced : Nat

/-- Model of _make_request: build the URL, merge caller headers over the
generated Authorization header, issue the request; on a 401 force a refresh,
rebuild the headers from _get_headers alone, and reissue once; finally apply
raise_for_status to the last response.  The api oracle maps the attempt
index (0 = first, 1 = retry) to the response received. -/
def make_request (method endpoint : String)
    (callerHeaders opts : List (String × String))
    (st : ClientState) (now : Int)
    (prov : Nat → ProviderResponse) (api : Nat → Response) : MkOutcome :=
  let url := GRAPH_URL ++ endpoint
  let a1 := accessTokenGet st now prov 0
  match a1.result with
  | Except.error e => ⟨Except.error e, a1.st, [], a1.refreshes, 0⟩
  | Except.ok tok1 =>
    let headers1 :=
      dictUpdate [("Authorization", "Bearer " ++ tok1)] callerHeaders
    let req1 : RequestSpec := ⟨method, url, headers1, opts⟩
    let resp1 := api 0
    if resp1.status = 401 then
      let rr := refreshTokenRun a1.st now (prov a1.refreshes)
      match rr.1 with
      | Except.error e => ⟨Except.error e, rr.2, [req1], a1.refreshes + 1, 1⟩
      | Except.ok _ =>
        let a2 := accessTokenGet rr.2 now prov (a1.refreshes + 1)
        match a2.result with
        | Except.error e => ⟨Except.error e, a2.st, [req1], a2.refreshes, 1⟩
        | Except.ok tok2 =>
          let headers2 := [("Authorization", "Bearer " ++ tok2)]
          let req2 : RequestSpec := ⟨method, url, headers2, opts⟩
          let resp2 := api 1
          if raiseForStatus resp2.status then
            ⟨Except.error (ClientError.httpError resp2.status resp2.body),
              a2.st, [req1, req2], a2.refreshes, 1⟩
          else ⟨Except.ok resp2, a2.st, [req1, req2], a2.refreshes, 1⟩
    else
      if raiseForStatus resp1.status then
        ⟨Except.error (ClientError.httpError resp1.status resp1.body),
          a1.st, [req1], a1.refreshes, 0⟩
      else ⟨Except.ok resp1, a1.st, [req1], a1.refreshes, 0⟩

/-- Final target-API response of a _make_request call: the second response
when the first came back 401, otherwise the first. -/
def finalResponse (api : Nat → Response) : Response :=
  if (api 0).status = 401 then api 1 else api 0

/-- Python truthiness of the optional folder_id argument. -/
def folderIdTruthy : Option String → Bool
  | none => false
  | some s => !(s == "")

/-- Endpoint built by list_files. -/
def list_files_endpoint (userEmail : String) (folderId : Option String) :
    String :=
  if folderIdTruthy folderId then
    "/users/" ++ userEmail ++ "/drive/items/" ++ folderId.getD "" ++ "/children"
  else
    "/users/" ++ userEmail ++ "/drive/root/children"

/-- Endpoint built by get_file_metadata. -/
def get_file_metadata_endpoint (userEmail fileId : String) : String :=
  "/users/" ++ userEmail ++ "/drive/items/" ++ fileId

/-- Endpoint built by download_file. -/
def download_file_endpoint (userEmail fileId : String) : String :=
  "/users/" ++ userEmail ++ "/drive/items/" ++ fileId ++ "/content"

/-- Endpoint built by search_files: the query is interpolated verbatim. -/
def search_files_endpoint (userEmail query : String) : String :=
  "/users/" ++ userEmail ++ "/drive/root/search(q=\x27" ++ query ++ "\x27)"

/-- Characters left untouched by urllib quote with the default safe set:
letters, digits, underscore, dot, hyphen, tilde, and the slash. -/
def isUrlSafeChar (c : Char) : Bool :=
  (decide (65 ≤ c.toNat ∧ c.toNat ≤ 90)) ||
  (decide (97 ≤ c.toNat ∧ c.toNat ≤ 122)) ||
  (decide (48 ≤ c.toNat ∧ c.toNat ≤ 57)) ||
  c == '_' || c == '.' || c == '-' || c == '~' || c == '/'

/-- UTF-8 encoding of a code point as a list of byte values. -/
def utf8Bytes (n : Nat) : List Nat :=
  if n < 128 then [n]
  else if n < 2048 then [192 + n / 64, 128 + n % 64]
  else if n < 65536 then [224 + n / 4096, 128 + (n / 64) % 64, 128 + n % 64]
  else [240 + n / 262144, 128 + (n / 4096) % 64, 128 + (n / 64) % 64,
        128 + n % 64]

/-- Uppercase hexadecimal digit. -/
def hexDigitChar (n : Nat) : Char :=
  if n < 10 then Char.ofNat (48 + n) else Char.ofNat (55 + n)

/-- Percent-encoding of one byte. -/
def percentEncodeByte (b : Nat) : List Char :=
  [Char.ofNat 37, hexDigitChar (b / 16), hexDigitChar (b % 16)]

/-- Quoting of one character: safe characters pass through, every other
character is percent-encoded byte by byte in UTF-8. -/
def quoteChar (c : Char) : List Char :=
  if isUrlSafeChar c then [c]
  else ((utf8Bytes c.toNat).map percentEncodeByte).flatten

/-- Model of requests.utils.quote with the default safe set. -/
def urlquote (s : String) : String :=
  ⟨(s.data.map quoteChar).flatten⟩

/-- Endpoint built by get_file_by_path: the path is URL-encoded. -/
def get_file_by_path_endpoint (userEmail path : String) : String :=
  "/users/" ++ userEmail ++ "/drive/root:" ++ urlquote path

/-- Credential invariant: a token is stored exactly when an expiry is. -/
def credInv (st : ClientState) : Prop :=
  st.accessToken.isSome = st.tokenExpiry.isSome

/-- Concrete client state with a valid held credential, for witnesses. -/
def stValid : ClientState := ⟨some "tok", some 1000000⟩

/-- Concrete identity provider that always succeeds, for witnesses. -/
def provW : Nat → ProviderResponse := fun _ => ⟨200, some "t2", some 3600⟩

/-- Concrete target API returning 401 then 200, for witnesses. -/
def api401then200 : Nat → Response :=
  fun n => if n = 0 then ⟨401, "unauth"⟩ else ⟨200, "ok"⟩

/-- Concrete target API returning 401 on every attempt, for witnesses. -/
def api401both : Nat → Response := fun _ => ⟨401, "unauth"⟩

/-- Concrete target API returning 500 on every attempt, for witnesses. -/
def apiServerErr : Nat → Response := fun _ => ⟨500, "boom"⟩

/-- Concrete target API returning 304 on every attempt, for witnesses. -/
def api304 : Nat → Response := fun _ => ⟨304, "nm"⟩

/-- A held nonempty token whose expiry lies strictly beyond the skew window is
not treated as expired. -/
theorem isTokenExpired_false_of (st : ClientState) (now : Int) (t : String)
    (e : Int) (ht : st.accessToken = some t) (hne : t ≠ "")
    (hexp : st.tokenExpiry = some e) (hfresh : now + 300 < e) :
    isTokenExpired st now = false := by
  simp only [isTokenExpired, ht, hexp, if_neg hne, decide_eq_false_iff_not]
  omega

/-- Reading the token while the expiry check passes performs no refresh. -/
theorem accessTokenGet_not_expired (st : ClientState) (now : Int)
    (prov : Nat → ProviderResponse) (n : Nat)
    (h : isTokenExpired st now = false) :
    accessTokenGet st now prov n =
      ⟨Except.ok (st.accessToken.getD ""), st, n⟩ := by
  simp [accessTokenGet, h]

/-- A refresh against a non-raising provider response holding a token, whose
expiry computation stays in range, succeeds and replaces both stored fields. -/
theorem refreshTokenRun_ok (st : ClientState) (now : Int)
    (resp : ProviderResponse) (t : String)
    (hs : raiseForStatus resp.status = false)
    (hat : resp.access_token = some t)
    (hov : expiryAddRaises now (resp.expires_in.getD 3600) = false) :
    refreshTokenRun st now resp =
      (Except.ok (), ⟨some t, some (now + resp.expires_in.getD 3600)⟩) := by
  simp [refreshTokenRun, hs, hat, hov]

/-- Unfolding of a dispatcher call whose first attempt came back 401, from a
valid held credential and a well-formed provider response. -/
theorem make_request_retry_unfold (method endpoint : String)
    (ch opts : List (String × String)) (st : ClientState) (now : Int)
    (prov : Nat → ProviderResponse) (api : Nat → Response) (t : String)
    (hval : isTokenExpired st now = false)
    (hs : raiseForStatus (prov 0).status = false)
    (hat : (prov 0).access_token = some t)
    (hne : t ≠ "")
    (hei : 300 < (prov 0).expires_in.getD 3600)
    (hov : expiryAddRaises now ((prov 0).expires_in.getD 3600) = false)
    (h0 : (api 0).status = 401) :
    make_request method endpoint ch opts st now prov api =
      if raiseForStatus (api 1).status then
        ⟨Except.error (ClientError.httpError (api 1).status (api 1).body),
          ⟨some t, some (now + (prov 0).expires_in.getD 3600)⟩,
          [⟨method, GRAPH_URL ++ endpoint,
             dictUpdate [("Authorization", "Bearer " ++ st.accessToken.getD "")] ch,
             opts⟩,
           ⟨method, GRAPH_URL ++ endpoint,
             [("Authorization", "Bearer " ++ t)], opts⟩], 1, 1⟩
      else
        ⟨Except.ok (api 1),
          ⟨some t, some (now + (prov 0).expires_in.getD 3600)⟩,
          [⟨method, GRAPH_URL ++ endpoint,
             dictUpdate [("Authorization", "Bearer " ++ st.accessToken.getD "")] ch,
             opts⟩,
           ⟨method, GRAPH_URL ++ endpoint,
             [("Authorization", "Bearer " ++ t)], opts⟩], 1, 1⟩ := by
  have ha1 := accessTokenGet_not_expired st now prov 0 hval
  have hrr := refreshTokenRun_ok st now (prov 0) t hs hat hov
  have hval2 : isTokenExpired
      ⟨some t, some (now + (prov 0).expires_in.getD 3600)⟩ now = false := by
    simp only [isTokenExpired, if_neg hne, decide_eq_false_iff_not]
    omega
  have ha2 := accessTokenGet_not_expired
      ⟨some t, some (now + (prov 0).expires_in.getD 3600)⟩ now prov 1 hval2
  simp [make_request, ha1, hrr, ha2, h0]

/-- Unfolding of a dispatcher call whose first attempt did not come back 401,
from a valid held credential: a single request, no refresh, no retry. -/
theorem make_request_no401 (method endpoint : String)
    (ch opts : List (String × String)) (st : ClientState) (now : Int)
    (prov : Nat → ProviderResponse) (api : Nat → Response)
    (hval : isTokenExpired st now = false)
    (h0 : (api 0).status ≠ 401) :
    make_request method endpoint ch opts st now prov api =
      if raiseForStatus (api 0).status then
        ⟨Except.error (ClientError.httpError (api 0).status (api 0).body), st,
          [⟨method, GRAPH_URL ++ endpoint,
             dictUpdate [("Authorization", "Bearer " ++ st.accessToken.getD "")] ch,
             opts⟩], 0, 0⟩
      else
        ⟨Except.ok (api 0), st,
          [⟨method, GRAPH_URL ++ endpoint,
             dictUpdate [("Authorization", "Bearer " ++ st.accessToken.getD "")] ch,
             opts⟩], 0, 0⟩ := by
  have ha1 := accessTokenGet_not_expired st now prov 0 hval
  simp [make_request, ha1, h0]

/-- A refresh rejected for its provider status raises before any assignment
and leaves the stored fields exactly as they were. -/
theorem refreshTokenRun_status_unchanged (st : ClientState) (now : Int)
    (resp : ProviderResponse) (hrs : raiseForStatus resp.status = true) :
    refreshTokenRun st now resp =
      (Except.error (ClientError.authError resp.status), st) := by
  simp [refreshTokenRun, hrs]

/-- A refresh whose body lacks access_token raises before any assignment and
leaves the stored fields exactly as they were. -/
theorem refreshTokenRun_body_unchanged (st : ClientState) (now : Int)
    (resp : ProviderResponse) (hrs : raiseForStatus resp.status = false)
    (hat : resp.access_token = none) :
    refreshTokenRun st now resp =
      (Except.error ClientError.malformedBody, st) := by
  simp [refreshTokenRun, hrs, hat]

/-- A refresh whose expiry computation overflows raises only after the token
assignment: the new token is stored, the previous expiry is kept. -/
theorem refreshTokenRun_overflow_torn (st : ClientState) (now : Int)
    (resp : ProviderResponse) (tok : String)
    (hrs : raiseForStatus resp.status = false)
    (hat : resp.access_token = some tok)
    (hov : expiryAddRaises now (resp.expires_in.getD 3600) = true) :
    refreshTokenRun st now resp =
      (Except.error ClientError.overflowError, ⟨some tok, st.tokenExpiry⟩) := by
  simp [refreshTokenRun, hrs, hat, hov]

/-- A refresh that completes stores token and expiry together, establishing
the token-iff-expiry invariant. -/
theorem refreshTokenRun_ok_credInv (st : ClientState) (now : Int)
    (resp : ProviderResponse)
    (h : (refreshTokenRun st now resp).1 = Except.ok ()) :
    credInv (refreshTokenRun st now resp).2 := by
  cases hrs : raiseForStatus resp.status <;>
    cases hat : resp.access_token <;>
      simp_all [refreshTokenRun, credInv]
  cases hov : expiryAddRaises now (resp.expires_in.getD 3600) <;>
    simp_all

/-- C9: list_files with no folder id targets the root-children endpoint, and
list_files with a non-empty folder id targets the items/id/children endpoint. -/
theorem list_files_endpoint_selection (u fid : String) (hfid : fid ≠ "") :
    list_files_endpoint u none = "/users/" ++ u ++ "/drive/root/children" ∧
    list_files_endpoint u (some fid) =
      "/users/" ++ u ++ "/drive/items/" ++ fid ++ "/children" := by
  constructor
  · rfl
  · have h : (fid == "") = false := beq_eq_false_iff_ne.mpr hfid
    simp [list_files_endpoint, folderIdTruthy, h]

/-- Witness for C9 at a concrete account and folder id. -/
theorem list_files_endpoint_selection_witness :
    list_files_endpoint "user@example.com" none =
      "/users/" ++ "user@example.com" ++ "/drive/root/children" ∧
    list_files_endpoint "user@example.com" (some "F1") =
      "/users/" ++ "user@example.com" ++ "/drive/items/" ++ "F1" ++ "/children" :=
  list_files_endpoint_selection "user@example.com" "F1" (by decide)

/-- C10: list_files with an empty-string folder id targets the root-children
endpoint, because the branch is selected by truthiness of the argument rather
than by a test against None. -/
theorem list_files_empty_folder_id (u : String) :
    list_files_endpoint u (some "") =
      "/users/" ++ u ++ "/drive/root/children" := rfl

/-- C5: with a held nonempty token whose expiry lies more than five minutes
after the current time, reading the access token performs no refresh and
returns the stored token; and in general the expiry check fails exactly when
no credential is held (token or expiry missing, or the token falsy) or the
current time is at or past expiry minus the 300-second skew. -/
theorem access_token_skew (st : ClientState) (now : Int)
    (prov : Nat → ProviderResponse) (t : String) (e : Int)
    (ht : st.accessToken = some t) (hne : t ≠ "")
    (hexp : st.tokenExpiry = some e) (hfresh : now + 300 < e) :
    accessTokenGet st now prov 0 = ⟨Except.ok t, st, 0⟩ ∧
    ∀ st2 now2, isTokenExpired st2 now2 = true ↔
      (st2.accessToken = none ∨ st2.accessToken = some "" ∨
        st2.tokenExpiry = none ∨
        ∃ e2, st2.tokenExpiry = some e2 ∧ e2 - 300 ≤ now2) := by
  constructor
  · have hnx : isTokenExpired st now = false :=
      isTokenExpired_false_of st now t e ht hne hexp hfresh
    rw [accessTokenGet_not_expired st now prov 0 hnx]
    simp [ht]
  · intro st2 now2
    cases st2 with
    | mk a x =>
      cases a with
      | none => simp [isTokenExpired]
      | some t2 =>
        cases x with
        | none => simp [isTokenExpired]
        | some e2 =>
          by_cases ht2 : t2 = ""
          · subst ht2
            simp [isTokenExpired]
          · simp [isTokenExpired, ht2]

/-- Witness for C5 at a concrete state with a far-future expiry. -/
theorem access_token_skew_witness :
    accessTokenGet ⟨some "tok", some 1000⟩ 0 provW 0 =
      ⟨Except.ok "tok", ⟨some "tok", some 1000⟩, 0⟩ :=
  (access_token_skew ⟨some "tok", some 1000⟩ 0 provW "tok" 1000 rfl
    (by decide) rfl (by decide)).1

/-- C7: a successful refresh stores expiry now plus the expires_in taken from
the provider body, and when the body lacks expires_in the expiry defaults to
now plus 3600 seconds. -/
theorem refresh_expiry_computation (st : ClientState) (now : Int)
    (resp : ProviderResponse) (t : String)
    (hs : raiseForStatus resp.status = false)
    (hat : resp.access_token = some t)
    (hov : expiryAddRaises now (resp.expires_in.getD 3600) = false) :
    refreshTokenRun st now resp =
      (Except.ok (), ⟨some t, some (now + resp.expires_in.getD 3600)⟩) ∧
    (resp.expires_in = none →
      refreshTokenRun st now resp =
        (Except.ok (), ⟨some t, some (now + 3600)⟩)) := by
  constructor
  · exact refreshTokenRun_ok st now resp t hs hat hov
  · intro hnone
    rw [refreshTokenRun_ok st now resp t hs hat hov, hnone]
    simp

/-- Witness for C7 at a provider response lacking expires_in. -/
theorem refresh_expiry_computation_witness :
    refreshTokenRun initClientState 0 ⟨200, some "tk", none⟩ =
      (Except.ok (), ⟨some "tk", some (0 + 3600)⟩) :=
  (refresh_expiry_computation initClientState 0 ⟨200, some "tk", none⟩ "tk"
    rfl rfl rfl).2 rfl

/-- C8 counterexample: applied to the initial state, a provider response with
a huge expires_in makes the expiry computation overflow after the token was
already assigned: the refresh attempt fails, yet it has changed the stored
state and left a token without any expiry, breaking the invariant. -/
theorem refresh_overflow_breaks_invariant :
    (refreshTokenRun initClientState 0 ⟨200, some "x", some 300000000000⟩).1 =
      Except.error ClientError.overflowError ∧
    (refreshTokenRun initClientState 0 ⟨200, some "x", some 300000000000⟩).2 =
      ⟨some "x", none⟩ ∧
    (⟨some "x", none⟩ : ClientState) ≠ initClientState ∧
    ¬ credInv ⟨some "x", none⟩ := by
  refine ⟨rfl, rfl, by decide, ?_⟩
  simp [credInv]

/-- C8 amended: the credential starts with both fields absent; a refresh
attempt that fails before the token assignment (a provider error status or a
body lacking access_token) leaves both stored fields exactly as they were;
and a refresh that completes stores token and expiry together, so those
outcomes uphold the token-iff-expiry invariant.  But a refresh whose expiry
computation overflows raises only after the token assignment: it overwrites
the token and keeps the previous expiry, so a failed attempt can leave a
token without a matching expiry. -/
theorem credential_refresh_atomicity :
    credInv initClientState ∧
    (∀ st now resp, raiseForStatus resp.status = true →
      refreshTokenRun st now resp =
        (Except.error (ClientError.authError resp.status), st)) ∧
    (∀ st now resp, raiseForStatus resp.status = false →
      resp.access_token = none →
      refreshTokenRun st now resp =
        (Except.error ClientError.malformedBody, st)) ∧
    (∀ st now resp, (refreshTokenRun st now resp).1 = Except.ok () →
      credInv (refreshTokenRun st now resp).2) ∧
    (∀ st now resp tok, raiseForStatus resp.status = false →
      resp.access_token = some tok →
      expiryAddRaises now (resp.expires_in.getD 3600) = true →
      refreshTokenRun st now resp =
        (Except.error ClientError.overflowError, ⟨some tok, st.tokenExpiry⟩)) :=
  ⟨by simp [credInv, initClientState],
   fun st now resp hrs => refreshTokenRun_status_unchanged st now resp hrs,
   fun st now resp hrs hat =>
     refreshTokenRun_body_unchanged st now resp hrs hat,
   fun st now resp h => refreshTokenRun_ok_credInv st now resp h,
   fun st now resp tok hrs hat hov =>
     refreshTokenRun_overflow_torn st now resp tok hrs hat hov⟩

/-- Witness for the amended C8: each refresh outcome exercised at a concrete
state and provider response, including the torn overflow outcome. -/
theorem credential_refresh_atomicity_witness :
    refreshTokenRun stValid 0 ⟨500, none, none⟩ =
      (Except.error (ClientError.authError 500), stValid) ∧
    refreshTokenRun stValid 0 ⟨200, none, none⟩ =
      (Except.error ClientError.malformedBody, stValid) ∧
    credInv (refreshTokenRun stValid 0 ⟨200, some "t2", some 3600⟩).2 ∧
    refreshTokenRun stValid 0 ⟨200, some "x", some 300000000000⟩ =
      (Except.error ClientError.overflowError, ⟨some "x", some 1000000⟩) :=
  ⟨credential_refresh_atomicity.2.1 stValid 0 ⟨500, none, none⟩ rfl,
   credential_refresh_atomicity.2.2.1 stValid 0 ⟨200, none, none⟩ rfl rfl,
   credential_refresh_atomicity.2.2.2.1 stValid 0 ⟨200, some "t2", some 3600⟩
     rfl,
   credential_refresh_atomicity.2.2.2.2 stValid 0
     ⟨200, some "x", some 300000000000⟩ "x" rfl rfl (by decide)⟩

/-- C2: when the target returns 401 on the first attempt and a 2xx on the
second, the dispatcher performs exactly one forced refresh and exactly one
retry, one provider call in total, and returns the second response. -/
theorem retry_on_401_success (method endpoint : String)
    (ch opts : List (String × String)) (st : ClientState) (now : Int)
    (prov : Nat → ProviderResponse) (api : Nat → Response) (t : String)
    (hval : isTokenExpired st now = false)
    (hs : raiseForStatus (prov 0).status = false)
    (hat : (prov 0).access_token = some t)
    (hne : t ≠ "")
    (hei : 300 < (prov 0).expires_in.getD 3600)
    (hov : expiryAddRaises now ((prov 0).expires_in.getD 3600) = false)
    (h0 : (api 0).status = 401)
    (h1 : 200 ≤ (api 1).status ∧ (api 1).status < 300) :
    (make_request method endpoint ch opts st now prov api).result =
      Except.ok (api 1) ∧
    (make_request method endpoint ch opts st now prov api).forced = 1 ∧
    (make_request method endpoint ch opts st now prov api).refreshes = 1 ∧
    (make_request method endpoint ch opts st now prov api).requestsMade.length
      = 2 := by
  have hraise : raiseForStatus (api 1).status = false := by
    simp only [raiseForStatus, decide_eq_false_iff_not]
    omega
  rw [make_request_retry_unfold method endpoint ch opts st now prov api t
    hval hs hat hne hei hov h0]
  rw [if_neg (by simp [hraise])]
  exact ⟨rfl, rfl, rfl, rfl⟩

/-- Witness for C2 at a concrete client state, provider and target API. -/
theorem retry_on_401_success_witness :
    (make_request "GET" "/x" [] [] stValid 0 provW api401then200).result =
      Except.ok ⟨200, "ok"⟩ ∧
    (make_request "GET" "/x" [] [] stValid 0 provW api401then200).forced = 1 ∧
    (make_request "GET" "/x" [] [] stValid 0 provW api401then200).refreshes
      = 1 ∧
    (make_request "GET" "/x" [] [] stValid 0 provW
      api401then200).requestsMade.length = 2 :=
  retry_on_401_success "GET" "/x" [] [] stValid 0 provW api401then200 "t2"
    rfl rfl rfl (by decide) (by decide) rfl rfl (by decide)

/-- C3: when the target returns 401 on both attempts, the dispatcher fails
with an HttpError carrying the status and body of the second response, after
exactly one refresh and exactly one retry and never a third request; and a
first response with any non-401 status is never retried. -/
theorem fail_on_second_401 (method endpoint : String)
    (ch opts : List (String × String)) (st : ClientState) (now : Int)
    (prov : Nat → ProviderResponse) (api : Nat → Response) (t : String)
    (hval : isTokenExpired st now = false)
    (hs : raiseForStatus (prov 0).status = false)
    (hat : (prov 0).access_token = some t)
    (hne : t ≠ "")
    (hei : 300 < (prov 0).expires_in.getD 3600)
    (hov : expiryAddRaises now ((prov 0).expires_in.getD 3600) = false)
    (h0 : (api 0).status = 401)
    (h1 : (api 1).status = 401) :
    (make_request method endpoint ch opts st now prov api).result =
      Except.error (ClientError.httpError (api 1).status (api 1).body) ∧
    (make_request method endpoint ch opts st now prov api).forced = 1 ∧
    (make_request method endpoint ch opts st now prov api).refreshes = 1 ∧
    (make_request method endpoint ch opts st now prov api).requestsMade.length
      = 2 ∧
    (∀ api2 : Nat → Response, (api2 0).status ≠ 401 →
      (make_request method endpoint ch opts st now prov
        api2).requestsMade.length = 1) := by
  have hraise : raiseForStatus (api 1).status = true := by
    rw [h1]
    rfl
  rw [make_request_retry_unfold method endpoint ch opts st now prov api t
    hval hs hat hne hei hov h0]
  rw [if_pos (by simp [hraise])]
  refine ⟨rfl, rfl, rfl, rfl, ?_⟩
  intro api2 hn2
  rw [make_request_no401 method endpoint ch opts st now prov api2 hval hn2]
  split
  · rfl
  · rfl

/-- Witness for C3: concrete double-401 scenario, plus a concrete 500 that is
not retried. -/
theorem fail_on_second_401_witness :
    (make_request "GET" "/x" [] [] stValid 0 provW api401both).result =
      Except.error (ClientError.httpError 401 "unauth") ∧
    (make_request "GET" "/x" [] [] stValid 0 provW api401both).forced = 1 ∧
    (make_request "GET" "/x" [] [] stValid 0 provW api401both).refreshes = 1 ∧
    (make_request "GET" "/x" [] [] stValid 0 provW
      api401both).requestsMade.length = 2 ∧
    (make_request "GET" "/x" [] [] stValid 0 provW
      apiServerErr).requestsMade.length = 1 := by
  have h := fail_on_second_401 "GET" "/x" [] [] stValid 0 provW api401both
    "t2" rfl rfl rfl (by decide) (by decide) rfl rfl rfl
  exact ⟨h.1, h.2.1, h.2.2.1, h.2.2.2.1, h.2.2.2.2 apiServerErr (by decide)⟩

/-- C1 counterexample: a caller-supplied header carried by the first request
is absent from the retried request, so the reissued request is not identical
to the original apart from the Authorization header. -/
theorem retry_drops_caller_header :
    ((make_request "GET" "/x" [("X-Custom", "v")] [] stValid 0 provW
      api401then200).requestsMade.map
        (fun r => dictGet r.headers "X-Custom")) = [some "v", none] := by
  decide

/-- C1 amended: on a 401 the dispatcher reissues the request with the same
method, URL and transport options, and on the first attempt caller headers
are merged over the generated Authorization header; but the retried header
map is rebuilt to hold only the fresh Authorization header, so caller headers
are not re-applied on the retry. -/
theorem retry_rebuilds_headers_only (method endpoint : String)
    (ch opts : List (String × String)) (st : ClientState) (now : Int)
    (prov : Nat → ProviderResponse) (api : Nat → Response) (t : String)
    (hval : isTokenExpired st now = false)
    (hs : raiseForStatus (prov 0).status = false)
    (hat : (prov 0).access_token = some t)
    (hne : t ≠ "")
    (hei : 300 < (prov 0).expires_in.getD 3600)
    (hov : expiryAddRaises now ((prov 0).expires_in.getD 3600) = false)
    (h0 : (api 0).status = 401) :
    (make_request method endpoint ch opts st now prov api).requestsMade =
      [⟨method, GRAPH_URL ++ endpoint,
         dictUpdate [("Authorization", "Bearer " ++ st.accessToken.getD "")] ch,
         opts⟩,
       ⟨method, GRAPH_URL ++ endpoint,
         [("Authorization", "Bearer " ++ t)], opts⟩] := by
  rw [make_request_retry_unfold method endpoint ch opts st now prov api t
    hval hs hat hne hei hov h0]
  split
  · rfl
  · rfl

/-- Witness for the amended C1 at a concrete caller header. -/
theorem retry_rebuilds_headers_only_witness :
    (make_request "GET" "/x" [("X-Custom", "v")] [] stValid 0 provW
      api401then200).requestsMade =
      [⟨"GET", GRAPH_URL ++ "/x",
         dictUpdate [("Authorization", "Bearer " ++ "tok")]
           [("X-Custom", "v")], []⟩,
       ⟨"GET", GRAPH_URL ++ "/x", [("Authorization", "Bearer " ++ "t2")],
         []⟩] :=
  retry_rebuilds_headers_only "GET" "/x" [("X-Custom", "v")] [] stValid 0
    provW api401then200 "t2" rfl rfl rfl (by decide) (by decide) rfl rfl

/-- C4 counterexample: search_files inserts its query verbatim, so a query
holding a space yields a request path with a literal space where the
URL-encoded form would have none. -/
theorem search_query_not_encoded :
    (search_files_endpoint "user@example.com" "a b").data.contains ' ' =
      true ∧
    (urlquote "a b").data.contains ' ' = false ∧
    urlquote "a b" = "a%20b" := by
  decide

/-- C4 amended: only get_file_by_path URL-encodes its caller-supplied segment
(in particular the spaces of /Documents/report with spaces.pdf become %20);
search_files, get_file_metadata, download_file and list_files insert the
caller-supplied query or id verbatim, without encoding. -/
theorem url_encoding_policy (u fid q p : String) (hfid : fid ≠ "") :
    get_file_by_path_endpoint u p =
      "/users/" ++ u ++ "/drive/root:" ++ urlquote p ∧
    get_file_by_path_endpoint u "/Documents/report with spaces.pdf" =
      "/users/" ++ u ++ "/drive/root:" ++
        "/Documents/report%20with%20spaces.pdf" ∧
    search_files_endpoint u q =
      "/users/" ++ u ++ "/drive/root/search(q=\x27" ++ q ++ "\x27)" ∧
    get_file_metadata_endpoint u fid =
      "/users/" ++ u ++ "/drive/items/" ++ fid ∧
    download_file_endpoint u fid =
      "/users/" ++ u ++ "/drive/items/" ++ fid ++ "/content" ∧
    list_files_endpoint u (some fid) =
      "/users/" ++ u ++ "/drive/items/" ++ fid ++ "/children" := by
  have henc : urlquote "/Documents/report with spaces.pdf" =
      "/Documents/report%20with%20spaces.pdf" := by decide
  have hb : (fid == "") = false := beq_eq_false_iff_ne.mpr hfid
  refine ⟨rfl, ?_, rfl, rfl, rfl, ?_⟩
  · simp [get_file_by_path_endpoint, henc]
  · simp [list_files_endpoint, folderIdTruthy, hb]

/-- Witness for the amended C4 at concrete inputs. -/
theorem url_encoding_policy_witness :
    get_file_by_path_endpoint "u@d" "/Documents/report with spaces.pdf" =
      "/users/" ++ "u@d" ++ "/drive/root:" ++
        "/Documents/report%20with%20spaces.pdf" ∧
    search_files_endpoint "u@d" "a b" =
      "/users/" ++ "u@d" ++ "/drive/root/search(q=\x27" ++ "a b" ++ "\x27)" :=
  ⟨(url_encoding_policy "u@d" "F1" "a b" "/Documents/report with spaces.pdf"
      (by decide)).2.1,
   (url_encoding_policy "u@d" "F1" "a b" "/Documents/report with spaces.pdf"
      (by decide)).2.2.1⟩

/-- C6 counterexample: a final 304 response has a status outside the 2xx
range, yet the call does not fail and hands the response back unchanged. -/
theorem non2xx_not_always_error :
    (make_request "GET" "/x" [] [] stValid 0 provW api304).result =
      Except.ok ⟨304, "nm"⟩ ∧
    ¬(200 ≤ 304 ∧ 304 < 300) :=
  ⟨rfl, by decide⟩

/-- C6 amended: the call fails with an HttpError carrying the final status
and body exactly when that status lies in 400..599; any final response with
a status outside that range, 2xx or otherwise (for example 3xx), is returned
to the caller unchanged. -/
theorem error_iff_status_4xx_5xx (method endpoint : String)
    (ch opts : List (String × String)) (st : ClientState) (now : Int)
    (prov : Nat → ProviderResponse) (api : Nat → Response) (t : String)
    (hval : isTokenExpired st now = false)
    (hs : raiseForStatus (prov 0).status = false)
    (hat : (prov 0).access_token = some t)
    (hne : t ≠ "")
    (hei : 300 < (prov 0).expires_in.getD 3600)
    (hov : expiryAddRaises now ((prov 0).expires_in.getD 3600) = false) :
    (raiseForStatus (finalResponse api).status = true →
      (make_request method endpoint ch opts st now prov api).result =
        Except.error (ClientError.httpError (finalResponse api).status
          (finalResponse api).body)) ∧
    (raiseForStatus (finalResponse api).status = false →
      (make_request method endpoint ch opts st now prov api).result =
        Except.ok (finalResponse api)) := by
  by_cases h401 : (api 0).status = 401
  · have hfin : finalResponse api = api 1 := by
      simp [finalResponse, h401]
    rw [hfin, make_request_retry_unfold method endpoint ch opts st now prov
      api t hval hs hat hne hei hov h401]
    constructor
    · intro hr
      rw [if_pos (by simp [hr])]
    · intro hr
      rw [if_neg (by simp [hr])]
  · have hfin : finalResponse api = api 0 := by
      simp [finalResponse, h401]
    rw [hfin, make_request_no401 method endpoint ch opts st now prov api
      hval h401]
    constructor
    · intro hr
      rw [if_pos (by simp [hr])]
    · intro hr
      rw [if_neg (by simp [hr])]

/-- Witness for the amended C6: a final 304 is handed back unchanged. -/
theorem error_iff_status_4xx_5xx_witness :
    (make_request "GET" "/x" [] [] stValid 0 provW api304).result =
      Except.ok ⟨304, "nm"⟩ :=
  (error_iff_status_4xx_5xx "GET" "/x" [] [] stValid 0 provW api304 "t2"
    rfl rfl rfl (by decide) (by decide) rfl).2 rfl

end OneDrive
